import Mathlib

/-
  Verification development for the `safenode` network layer
  (src/safenode/src/network/mod.rs and src/safenode/src/network/error.rs).

  The layer is a single driver loop (`NetworkSwarmLoop`) that owns a libp2p
  swarm, a cloneable handle (`Network`) whose public operations submit
  `SwarmCmd`s over a zero-capacity mpsc channel and await oneshot completion
  channels, and an error taxonomy (`Error`).

  External collaborators (libp2p multiaddr parsing, the QUIC transport, the
  futures channels, the composed behaviours) are modelled shallowly: their
  observable outcomes appear as explicit environment parameters, and the
  structured data the source constructs from them (multiaddrs, behaviour
  configuration, channel capacities) is modelled concretely.
-/

/-! ## Identity and basic data (external libp2p / xor_name types) -/

/-- Model of `libp2p::identity::Keypair` (ed25519): the generated key material,
    represented by the entropy that produced it. -/
structure Keypair where
  seed : Nat
deriving DecidableEq, Repr

/-- Model of `identity::Keypair::generate_ed25519()`: key generation is a
    function of the process entropy supplied at the call. -/
def identity.Keypair.generate_ed25519 (entropy : Nat) : Keypair :=
  { seed := entropy }

/-- Model of the keypair's public half. -/
structure PublicKey where
  key : Nat
deriving DecidableEq, Repr

/-- Model of `Keypair::public`. -/
def identity.Keypair.public (k : Keypair) : PublicKey :=
  { key := k.seed }

/-- Model of `libp2p::PeerId`: opaque peer identity. -/
structure PeerId where
  id : Nat
deriving DecidableEq, Repr

/-- Model of `PeerId::from(public_key)`: the peer identity derived from a
    public key. -/
def PeerId.fromPublic (p : PublicKey) : PeerId :=
  { id := p.key }

/-- Model of `xor_name::XorName`: a fixed-width content key (the width plays
    no role in the claims, so the value is an abstract number). -/
structure XorName where
  val : Nat
deriving DecidableEq, Repr

/-- Model of the application-level `Request` payload (from the external
    `msg` module). -/
structure Request where
  payload : Nat
deriving DecidableEq, Repr

/-- Model of the application-level `Response` payload (from the external
    `msg` module). -/
structure Response where
  payload : Nat
deriving DecidableEq, Repr

/-- Model of `libp2p::request_response::ResponseChannel<Response>`: the
    single-redemption capability attached to an inbound request. -/
structure ResponseChannel where
  token : Nat
deriving DecidableEq, Repr

/-- Model of `libp2p::kad::QueryId`. -/
def QueryId := Nat
deriving DecidableEq, Repr

/-- Model of `libp2p::request_response::RequestId`. -/
def RequestId := Nat
deriving DecidableEq, Repr

/-! ## Multiaddr (external libp2p address type and its parser) -/

/-- An IPv4 address component of a multiaddr; each octet is below 256
    (enforced by the parser). -/
structure Ip4Addr where
  a : Nat
  b : Nat
  c : Nat
  d : Nat
deriving DecidableEq, Repr

/-- The multiaddr protocol components used by this node: `/ip4/<host>`,
    `/udp/<port>` and `/quic-v1`. -/
inductive MultiaddrProto where
  | ip4 (addr : Ip4Addr)
  | udp (port : Nat)
  | quicV1
deriving DecidableEq, Repr

/-- Model of `libp2p::Multiaddr`: the parsed protocol stack. -/
structure Multiaddr where
  protocols : List MultiaddrProto
deriving DecidableEq, Repr

/-- Split a character list at every occurrence of `sep`. -/
def splitChar (sep : Char) : List Char → List (List Char)
  | [] => [[]]
  | c :: cs =>
    let rest := splitChar sep cs
    if c = sep then [] :: rest
    else
      match rest with
      | s :: ss => (c :: s) :: ss
      | [] => [[c]]

/-- One decimal digit. -/
def digitChar (c : Char) : Option Nat :=
  if '0' ≤ c ∧ c ≤ '9' then some (c.toNat - '0'.toNat) else none

/-- Decimal digits, most significant first, onto an accumulator. -/
def natOfDigitsAux (acc : Nat) : List Char → Option Nat
  | [] => some acc
  | c :: cs =>
    match digitChar c with
    | some d => natOfDigitsAux (10 * acc + d) cs
    | none => none

/-- Parse a non-empty decimal numeral. -/
def natOfDigits : List Char → Option Nat
  | [] => none
  | cs => natOfDigitsAux 0 cs

/-- Parse one dotted-quad IPv4 literal. -/
def parseIp4 (cs : List Char) : Option Ip4Addr :=
  match splitChar '.' cs with
  | [a, b, c, d] => do
    let a' ← natOfDigits a
    let b' ← natOfDigits b
    let c' ← natOfDigits c
    let d' ← natOfDigits d
    if a' < 256 && b' < 256 && c' < 256 && d' < 256 then
      some { a := a', b := b', c := c', d := d' }
    else
      none
  | _ => none

/-- Parse the sequence of `/`-separated multiaddr segments. -/
def parseProtos : List (List Char) → Option (List MultiaddrProto)
  | [] => some []
  | [seg] =>
    if seg = "quic-v1".toList then some [MultiaddrProto.quicV1] else none
  | seg :: s :: rest =>
    if seg = "ip4".toList then do
      let ip ← parseIp4 s
      let ps ← parseProtos rest
      some (MultiaddrProto.ip4 ip :: ps)
    else if seg = "udp".toList then do
      let p ← natOfDigits s
      if p < 65536 then
        let ps ← parseProtos rest
        some (MultiaddrProto.udp p :: ps)
      else
        none
    else if seg = "quic-v1".toList then do
      let ps ← parseProtos (s :: rest)
      some (MultiaddrProto.quicV1 :: ps)
    else
      none

/-- Model of the multiaddr `FromStr` used by `"...".parse()` in
    `NetworkSwarmLoop::new`: a multiaddr text is `/`-led and consists of the
    supported protocol segments. Errors are rendered messages. -/
def Multiaddr.parse (s : String) : Except String Multiaddr :=
  match splitChar '/' s.toList with
  | [] :: segs =>
    match parseProtos segs with
    | some ps => Except.ok { protocols := ps }
    | none => Except.error "invalid multiaddr"
  | _ => Except.error "invalid multiaddr"

/-! ## Error taxonomy (src/safenode/src/network/error.rs) -/

/-- `error.rs`: the internal error enum. Each variant wraps its source error
    (`io::Error`, `TransportError<io::Error>`, `DialError`,
    `OutboundFailure`), modelled by the wrapped error's rendered message. -/
inductive Error where
  | io (e : String)
  | transportError (e : String)
  | dialError (e : String)
  | outboundError (e : String)
deriving DecidableEq, Repr

/-- The `thiserror` display strings of `error.rs` (`#[error("...")]`). -/
def Error.render : Error → String
  | .io e => "I/O error: " ++ e
  | .transportError _ => "Transport Error"
  | .dialError _ => "Dial Error"
  | .outboundError _ => "Outbound Error"

/-- Model of `futures::channel::mpsc::SendError` as observed through
    `SinkExt::send(..).await`: the await only fails once the receiving loop
    is gone, i.e. the channel is disconnected. -/
inductive SendError where
  | disconnected
deriving DecidableEq, Repr

/-- Model of `futures::channel::oneshot::Canceled`: the sender half was
    dropped without sending. -/
inductive Canceled where
  | canceled
deriving DecidableEq, Repr

/-- Modelled from the spec: the conversion applied by `?` to a failed
    command-channel submission is not in this excerpt (`error.rs` shows no
    `From<mpsc::SendError>` impl); spec §7 requires that a caller cut off
    from the loop "observe a 'disconnected' condition equivalent to a
    transport failure". -/
def Error.ofSendError : SendError → Error
  | .disconnected => Error.transportError "command channel disconnected"

/-- Modelled from the spec: the conversion applied by `?` to a cancelled
    completion channel is not in this excerpt (`error.rs` shows no
    `From<oneshot::Canceled>` impl); spec §7 requires the same "disconnected"
    condition equivalent to a transport failure. -/
def Error.ofCanceled : Canceled → Error
  | .canceled => Error.transportError "completion channel canceled: disconnected"

/-! ## The bounded command channel (external `futures::channel::mpsc`) -/

/-- The sending half produced by `mpsc::channel(capacity)`, recording the
    buffer capacity it was created with. -/
structure MpscSender where
  capacity : Nat
deriving DecidableEq, Repr

/-- The receiving half produced by `mpsc::channel(capacity)`. -/
structure MpscReceiver where
  capacity : Nat
deriving DecidableEq, Repr

/-- Model of `mpsc::channel(capacity)`. -/
def mpsc.channel (capacity : Nat) : MpscSender × MpscReceiver :=
  ({ capacity := capacity }, { capacity := capacity })

/-- An observable event on the command channel: a caller's submission
    completed (its `send(..).await` returned), or the loop consumed a
    command from the receiving end. -/
inductive ChanEvent where
  | sendCompleted (caller : Nat)
  | consumed (caller : Nat)
deriving DecidableEq, Repr

/-- Number of completed submissions in a trace. -/
def numSendCompleted (tr : List ChanEvent) : Nat :=
  tr.countP fun e => match e with | .sendCompleted _ => true | _ => false

/-- Number of loop-side receives in a trace. -/
def numConsumed (tr : List ChanEvent) : Nat :=
  tr.countP fun e => match e with | .consumed _ => true | _ => false

/-- Model of the bounded channel discipline of `mpsc::channel(capacity)`
    (spec §4.2): a trace of submissions and receives is admissible for
    capacity `c` when at every point at most `c` completed submissions are
    still unconsumed; with `c = 0` a submission completes only by rendezvous
    with the receiving loop. -/
def mpscAdmissible (capacity : Nat) (tr : List ChanEvent) : Bool :=
  (List.range (tr.length + 1)).all fun n =>
    numSendCompleted (tr.take n) ≤ numConsumed (tr.take n) + capacity

/-! ## Composed behaviour (external libp2p behaviours, wired in `new`) -/

/-- Model of `libp2p::request_response::ProtocolSupport`. -/
inductive ProtocolSupport where
  | Inbound
  | Outbound
  | Full
deriving DecidableEq, Repr

/-- The payload codec `MsgCodec` from the external `msg` module (the wire
    codec is an external collaborator; its unit constructor `MsgCodec()` is
    all this layer uses). -/
structure MsgCodec where
deriving DecidableEq, Repr

/-- The protocol name `MsgProtocol` from the external `msg` module. -/
structure MsgProtocol where
deriving DecidableEq, Repr

/-- Model of `request_response::Config` (constructed as
    `Default::default()`). -/
structure RequestResponseConfig where
deriving DecidableEq, Repr

/-- Model of `request_response::Behaviour`: the codec, the registered
    protocols with their support modes, and the configuration. -/
structure RequestResponseBehaviour where
  codec : MsgCodec
  protocols : List (MsgProtocol × ProtocolSupport)
  cfg : RequestResponseConfig
deriving DecidableEq, Repr

/-- Model of `request_response::Behaviour::new(codec, protocols, cfg)`. -/
def request_response.Behaviour.new (codec : MsgCodec)
    (protocols : List (MsgProtocol × ProtocolSupport))
    (cfg : RequestResponseConfig) : RequestResponseBehaviour :=
  { codec := codec, protocols := protocols, cfg := cfg }

/-- Model of `libp2p::kad::KademliaConfig`: only the query timeout is
    touched by this layer. -/
structure KademliaConfig where
  query_timeout_secs : Nat
deriving DecidableEq, Repr

/-- `KademliaConfig::default()` (libp2p's default query timeout is 60s; the
    value is irrelevant here because `new` overwrites it). -/
def KademliaConfig.default : KademliaConfig :=
  { query_timeout_secs := 60 }

/-- Model of `KademliaConfig::set_query_timeout(Duration::from_secs(..))`. -/
def KademliaConfig.set_query_timeout (cfg : KademliaConfig) (secs : Nat) :
    KademliaConfig :=
  { cfg with query_timeout_secs := secs }

/-- Model of `kad::record::store::MemoryStore`. -/
structure MemoryStore where
  local_peer_id : PeerId
deriving DecidableEq, Repr

/-- Model of `MemoryStore::new(peer_id)`. -/
def MemoryStore.new (peer_id : PeerId) : MemoryStore :=
  { local_peer_id := peer_id }

/-- Model of `libp2p::kad::Kademlia<MemoryStore>`. -/
structure Kademlia where
  peer_id : PeerId
  store : MemoryStore
  cfg : KademliaConfig
deriving DecidableEq, Repr

/-- Model of `Kademlia::with_config(peer_id, store, cfg)`. -/
def Kademlia.with_config (peer_id : PeerId) (store : MemoryStore)
    (cfg : KademliaConfig) : Kademlia :=
  { peer_id := peer_id, store := store, cfg := cfg }

/-- Model of `mdns::async_io::Behaviour` (local-network peer discovery,
    black-box). -/
structure Mdns where
  local_peer_id : PeerId
deriving DecidableEq, Repr

/-- `event.rs` is outside this excerpt, but the fields of `NodeBehaviour`
    are fixed by its construction in `NetworkSwarmLoop::new`
    (mod.rs lines 88-96): request/response, Kademlia and mDNS. -/
structure NodeBehaviour where
  request_response : RequestResponseBehaviour
  kademlia : Kademlia
  mdns : Mdns
deriving DecidableEq, Repr

/-- Model of `libp2p_quic::Config::new(&keypair)`. -/
structure QuicConfig where
  keypair : Keypair
deriving DecidableEq, Repr

/-- The transport built in `new`: the QUIC transport for the node's keypair,
    boxed behind `StreamMuxerBox` (secure, multiplexed, connection
    oriented). -/
inductive TransportKind where
  | quicBoxed (cfg : QuicConfig)
deriving DecidableEq, Repr

/-- Model of `libp2p::Swarm<NodeBehaviour>`: the transport, the composed
    behaviour, the local peer id and the addresses listening was requested
    on. -/
structure Swarm where
  transport : TransportKind
  behaviour : NodeBehaviour
  local_peer_id : PeerId
  listeners : List Multiaddr
deriving DecidableEq, Repr

/-- Model of `SwarmBuilder::with_async_std_executor(transport, behaviour,
    local_peer_id).build()`. -/
def SwarmBuilder.build (transport : TransportKind) (behaviour : NodeBehaviour)
    (local_peer_id : PeerId) : Swarm :=
  { transport := transport, behaviour := behaviour,
    local_peer_id := local_peer_id, listeners := [] }

/-- Model of `Swarm::listen_on(addr)`: binding is decided by the OS, so the
    outcome (a listener id, or a transport error message) is an environment
    input; on success the swarm records the address. -/
def Swarm.listen_on (s : Swarm) (addr : Multiaddr)
    (outcome : Except String Nat) : Except String (Nat × Swarm) :=
  match outcome with
  | .error e => .error e
  | .ok lid => .ok (lid, { s with listeners := s.listeners ++ [addr] })

/-! ## Command protocol and loop state (mod.rs) -/

/-- `command.rs` is outside this excerpt; the variants and their fields are
    fixed by the submissions in `Network`'s methods (mod.rs lines 158-220):
    each carries its inputs and, except `SendResponse`, the sender half of
    the caller's oneshot completion channel (modelled by its id). -/
inductive SwarmCmd where
  | StartListening (addr : Multiaddr) (sender : Nat)
  | Dial (peer_id : PeerId) (peer_addr : Multiaddr) (sender : Nat)
  | StoreData (xor_name : XorName) (sender : Nat)
  | GetDataProviders (xor_name : XorName) (sender : Nat)
  | SendRequest (req : Request) (peer : PeerId) (sender : Nat)
  | SendResponse (resp : Response) (channel : ResponseChannel)
deriving DecidableEq, Repr

/-- An abstract raw swarm event (the `SwarmEvent` items of
    `self.swarm.next()`); its structure is irrelevant to the loop's
    control flow. -/
structure SwarmEvent where
  tag : Nat
deriving DecidableEq, Repr

/-- mod.rs lines 50-58: the driver loop's state. The pending tables
    (`HashMap`s) are modelled as association lists mapping the operation
    identifier to the stored oneshot sender's id. -/
structure NetworkSwarmLoop where
  swarm : Swarm
  cmd_receiver : MpscReceiver
  event_sender : MpscSender
  pending_dial : List (PeerId × Nat)
  pending_start_providing : List (Nat × Nat)
  pending_get_providers : List (Nat × Nat)
  pending_requests : List (Nat × Nat)
deriving DecidableEq, Repr

/-- mod.rs line 152: the cloneable handle holding the command-channel
    sender. -/
structure Network where
  swarm_cmd_sender : MpscSender
deriving DecidableEq, Repr

/-- The triple returned by `NetworkSwarmLoop::new`. -/
structure NewResult where
  network : Network
  event_receiver : MpscReceiver
  event_loop : NetworkSwarmLoop
deriving DecidableEq, Repr

/-- The result of running a fallible Rust function, with panics represented
    explicitly (a `panic!`/`expect` aborts instead of returning `Err`). -/
inductive OpResult (α : Type) where
  | ok (a : α)
  | err (e : Error)
  | panicked (msg : String)
deriving DecidableEq, Repr

/-- The environment `NetworkSwarmLoop::new` runs in: the process entropy for
    key generation, the external multiaddr `FromStr`, and the outcomes of
    the fallible external calls (`mdns::Behaviour::new`, which feeds `?`,
    and `Swarm::listen_on`, which feeds `expect`). -/
structure NewEnv where
  entropy : Nat
  parse : String → Except String Multiaddr
  mdnsOutcome : Except String Unit
  listenOutcome : Except String Nat

/-- mod.rs lines 68-125: `NetworkSwarmLoop::new`. Generates the keypair and
    peer id, builds the QUIC transport, composes the behaviours (the `?` on
    mDNS construction propagates as `Err(Error::Io(..))`), builds the swarm,
    parses the hardcoded listen address and starts listening (both under
    `expect`, hence `panicked` on failure), and creates the two
    zero-capacity channels. -/
def NetworkSwarmLoop.new (env : NewEnv) : OpResult NewResult :=
  let keypair := identity.Keypair.generate_ed25519 env.entropy
  let local_peer_id := PeerId.fromPublic (identity.Keypair.public keypair)
  let quic_config : QuicConfig := { keypair := keypair }
  let transport := TransportKind.quicBoxed quic_config
  let cfg := KademliaConfig.set_query_timeout KademliaConfig.default (5 * 60)
  let kademlia :=
    Kademlia.with_config local_peer_id (MemoryStore.new local_peer_id) cfg
  match env.mdnsOutcome with
  | .error e => .err (Error.io e)
  | .ok _ =>
    let mdns : Mdns := { local_peer_id := local_peer_id }
    let behaviour : NodeBehaviour :=
      { request_response := request_response.Behaviour.new MsgCodec.mk
          [(MsgProtocol.mk, ProtocolSupport.Full)] RequestResponseConfig.mk,
        kademlia := kademlia,
        mdns := mdns }
    let swarm₀ := SwarmBuilder.build transport behaviour local_peer_id
    match env.parse "/ip4/0.0.0.0/udp/0/quic-v1" with
    | .error _ => .panicked "Failed to parse the address"
    | .ok addr =>
      match swarm₀.listen_on addr env.listenOutcome with
      | .error _ => .panicked "Failed to listen on the provided address"
      | .ok (_listener_id, swarm) =>
        let cmdChan := mpsc.channel 0
        let evChan := mpsc.channel 0
        .ok { network := { swarm_cmd_sender := cmdChan.1 },
              event_receiver := evChan.2,
              event_loop :=
                { swarm := swarm,
                  cmd_receiver := cmdChan.2,
                  event_sender := evChan.1,
                  pending_dial := [],
                  pending_start_providing := [],
                  pending_get_providers := [],
                  pending_requests := [] } }

/-! ## Handle operations (mod.rs lines 156-220)

Each public operation builds a fresh oneshot channel, submits a `SwarmCmd`
carrying the sender half on the command channel, and awaits the receiver.
The asynchronous surroundings are an explicit environment: the id of the
fresh oneshot pair, the outcome of `swarm_cmd_sender.send(cmd).await` (a
function of the submitted command), and what awaiting the oneshot receiver
yields — the value the loop eventually sent, or `Canceled` when the loop
dropped the sender half unresolved. -/

structure CallEnv (β : Type) where
  oneshotId : Nat
  sendOutcome : SwarmCmd → Except SendError Unit
  recvOutcome : Except Canceled β

/-- mod.rs lines 158-164: `Network::start_listening`. The oneshot payload is
    `Result<()>`; both `?`s propagate channel failures as errors. -/
def Network.start_listening (addr : Multiaddr)
    (env : CallEnv (Except Error Unit)) : OpResult Unit :=
  let sender := env.oneshotId
  match env.sendOutcome (SwarmCmd.StartListening addr sender) with
  | .error e => .err (Error.ofSendError e)
  | .ok _ =>
    match env.recvOutcome with
    | .error c => .err (Error.ofCanceled c)
    | .ok (.error e) => .err e
    | .ok (.ok _) => .ok ()

/-- mod.rs lines 167-177: `Network::dial`. -/
def Network.dial (peer_id : PeerId) (peer_addr : Multiaddr)
    (env : CallEnv (Except Error Unit)) : OpResult Unit :=
  let sender := env.oneshotId
  match env.sendOutcome (SwarmCmd.Dial peer_id peer_addr sender) with
  | .error e => .err (Error.ofSendError e)
  | .ok _ =>
    match env.recvOutcome with
    | .error c => .err (Error.ofCanceled c)
    | .ok (.error e) => .err e
    | .ok (.ok _) => .ok ()

/-- mod.rs lines 182-188: `Network::store_data`. -/
def Network.store_data (xor_name : XorName)
    (env : CallEnv (Except Error Unit)) : OpResult Unit :=
  let sender := env.oneshotId
  match env.sendOutcome (SwarmCmd.StoreData xor_name sender) with
  | .error e => .err (Error.ofSendError e)
  | .ok _ =>
    match env.recvOutcome with
    | .error c => .err (Error.ofCanceled c)
    | .ok (.error e) => .err e
    | .ok (.ok _) => .ok ()

/-- mod.rs lines 193-199: `Network::get_data_providers`. The oneshot payload
    is a bare `HashSet<PeerId>` (mod.rs line 56), modelled as a list of peer
    ids: the loop's resolution carries no error alternative, and the body
    wraps whatever set arrives in `Ok`. -/
def Network.get_data_providers (xor_name : XorName)
    (env : CallEnv (List PeerId)) : OpResult (List PeerId) :=
  let sender := env.oneshotId
  match env.sendOutcome (SwarmCmd.GetDataProviders xor_name sender) with
  | .error e => .err (Error.ofSendError e)
  | .ok _ =>
    match env.recvOutcome with
    | .error c => .err (Error.ofCanceled c)
    | .ok providers => .ok providers

/-- mod.rs lines 202-208: `Network::send_request`. -/
def Network.send_request (req : Request) (peer : PeerId)
    (env : CallEnv (Except Error Response)) : OpResult Response :=
  let sender := env.oneshotId
  match env.sendOutcome (SwarmCmd.SendRequest req peer sender) with
  | .error e => .err (Error.ofSendError e)
  | .ok _ =>
    match env.recvOutcome with
    | .error c => .err (Error.ofCanceled c)
    | .ok (.error e) => .err e
    | .ok (.ok resp) => .ok resp

/-- The environment of `Network::send_response`: the command-channel send
    outcome, and — for reference in the statements — what the loop's
    redemption of the `ResponseChannel` later produces. `SwarmCmd::SendResponse`
    carries no completion sender, so no channel exists that could route the
    redemption outcome back. -/
structure SendResponseEnv where
  sendOutcome : SwarmCmd → Except SendError Unit
  redeemOutcome : Except Error Unit

/-- mod.rs lines 211-220: `Network::send_response`. There is no oneshot
    channel: the body is `Ok(self.swarm_cmd_sender.send(SwarmCmd::SendResponse
    { resp, channel }).await?)`. -/
def Network.send_response (resp : Response) (channel : ResponseChannel)
    (env : SendResponseEnv) : OpResult Unit :=
  match env.sendOutcome (SwarmCmd.SendResponse resp channel) with
  | .error e => .err (Error.ofSendError e)
  | .ok _ => .ok ()

/-! ## Driver loop (mod.rs lines 128-147) -/

/-- One firing of the `futures::select!` in `run`: either `self.swarm.next()`
    yielded (an event, or `None` if the stream ended) or
    `self.cmd_receiver.next()` yielded (a command, or `None` if every handle
    was dropped). -/
inductive SelectArm where
  | swarmNext (e : Option SwarmEvent)
  | cmdNext (c : Option SwarmCmd)
deriving DecidableEq, Repr

/-- How a finite run of the loop ends: still looping when the supplied
    select trace is exhausted, returned gracefully (command channel closed),
    or aborted by a panic. `running` and `returned` carry the `warn!`
    messages emitted so far; a panic aborts the process. -/
inductive LoopOutcome where
  | running (st : NetworkSwarmLoop) (warnings : List String)
  | returned (st : NetworkSwarmLoop) (warnings : List String)
  | panicked (msg : String)
deriving DecidableEq, Repr

/-- mod.rs lines 128-147: `NetworkSwarmLoop::run`, driven by a finite trace
    of select firings. The bodies of `handle_event` and `handle_command`
    live outside this excerpt (`event.rs`/`command.rs`), so they are
    arbitrary parameters returning the mutated state and an optional error;
    an error is rendered through `warn!` and the loop continues. `None`
    from the swarm stream hits `expect("Swarm stream to be infinite!")`;
    `None` from the command receiver returns. -/
def NetworkSwarmLoop.run
    (handle_event : NetworkSwarmLoop → SwarmEvent → NetworkSwarmLoop × Option Error)
    (handle_command : NetworkSwarmLoop → SwarmCmd → NetworkSwarmLoop × Option Error)
    (st : NetworkSwarmLoop) (warnings : List String) :
    List SelectArm → LoopOutcome
  | [] => .running st warnings
  | SelectArm.swarmNext none :: _ => .panicked "Swarm stream to be infinite!"
  | SelectArm.swarmNext (some ev) :: rest =>
    match handle_event st ev with
    | (st', some err) =>
      NetworkSwarmLoop.run handle_event handle_command st'
        (warnings ++ ["Error while handling event: " ++ err.render]) rest
    | (st', none) =>
      NetworkSwarmLoop.run handle_event handle_command st' warnings rest
  | SelectArm.cmdNext (some cmd) :: rest =>
    match handle_command st cmd with
    | (st', some err) =>
      NetworkSwarmLoop.run handle_event handle_command st'
        (warnings ++ ["Error while handling cmd: " ++ err.render]) rest
    | (st', none) =>
      NetworkSwarmLoop.run handle_event handle_command st' warnings rest
  | SelectArm.cmdNext none :: _ => .returned st warnings

/-- The first stream-closure item a select trace delivers, if any: the arm
    whose `next()` yielded `None`. (The loop reacts to the earlier one.) -/
def firstClose : List SelectArm → Option SelectArm
  | [] => none
  | SelectArm.swarmNext none :: _ => some (SelectArm.swarmNext none)
  | SelectArm.cmdNext none :: _ => some (SelectArm.cmdNext none)
  | _ :: rest => firstClose rest

/-! ## Result classifiers and concrete instances used in the statements -/

/-- Whether an `OpResult` is an `Error::TransportError`. -/
def OpResult.isTransportErr {α : Type} : OpResult α → Bool
  | .err (Error.transportError _) => true
  | _ => false

/-- The hardcoded listen address of mod.rs line 102, in parsed form:
    all interfaces (`0.0.0.0`), OS-assigned port (`0`), QUIC. -/
def quicListenAddr : Multiaddr :=
  { protocols := [MultiaddrProto.ip4 ⟨0, 0, 0, 0⟩, MultiaddrProto.udp 0,
                  MultiaddrProto.quicV1] }

/-- A construction environment in which every external call succeeds and the
    multiaddr grammar is the real one. -/
def newEnvOk : NewEnv :=
  { entropy := 0, parse := Multiaddr.parse, mdnsOutcome := .ok (),
    listenOutcome := .ok 0 }

/-- The value `NetworkSwarmLoop.new newEnvOk` produces. -/
def newResultOk : NewResult :=
  { network := { swarm_cmd_sender := { capacity := 0 } },
    event_receiver := { capacity := 0 },
    event_loop :=
      { swarm := { transport := TransportKind.quicBoxed { keypair := { seed := 0 } },
                   behaviour :=
                     { request_response :=
                         { codec := {}, protocols := [({}, ProtocolSupport.Full)],
                           cfg := {} },
                       kademlia := { peer_id := { id := 0 },
                                     store := { local_peer_id := { id := 0 } },
                                     cfg := { query_timeout_secs := 300 } },
                       mdns := { local_peer_id := { id := 0 } } },
                   local_peer_id := { id := 0 },
                   listeners := [quicListenAddr] },
        cmd_receiver := { capacity := 0 },
        event_sender := { capacity := 0 },
        pending_dial := [], pending_start_providing := [],
        pending_get_providers := [], pending_requests := [] } }

/-- A construction environment whose multiaddr parser rejects its input. -/
def newEnvBadParse : NewEnv :=
  { entropy := 0, parse := fun _ => .error "bad multiaddr",
    mdnsOutcome := .ok (), listenOutcome := .ok 0 }

/-- A construction environment in which `Swarm::listen_on` fails. -/
def newEnvBadListen : NewEnv :=
  { entropy := 0, parse := Multiaddr.parse, mdnsOutcome := .ok (),
    listenOutcome := .error "bind failed" }

/-- A call environment whose completion sender was dropped unresolved
    (oneshot payload `Result<()>`). -/
def shutdownEnvUnit : CallEnv (Except Error Unit) :=
  { oneshotId := 0, sendOutcome := fun _ => .ok (),
    recvOutcome := .error Canceled.canceled }

/-- As `shutdownEnvUnit`, for the provider-set payload. -/
def shutdownEnvProviders : CallEnv (List PeerId) :=
  { oneshotId := 0, sendOutcome := fun _ => .ok (),
    recvOutcome := .error Canceled.canceled }

/-- As `shutdownEnvUnit`, for the `Result<Response>` payload. -/
def shutdownEnvResp : CallEnv (Except Error Response) :=
  { oneshotId := 0, sendOutcome := fun _ => .ok (),
    recvOutcome := .error Canceled.canceled }

/-- A call environment in which the loop resolves the provider query with
    the empty set. -/
def getProvEnvEmpty : CallEnv (List PeerId) :=
  { oneshotId := 0, sendOutcome := fun _ => .ok (), recvOutcome := .ok [] }

/-- A `send_response` environment: the command channel accepts the
    submission, and the loop's redemption of the capability then fails with
    a transport error. -/
def sendRespEnvRedeemFails : SendResponseEnv :=
  { sendOutcome := fun _ => .ok (),
    redeemOutcome := .error (Error.transportError "connection closed before response") }

/-- A `send_response` environment in which everything succeeds. -/
def sendRespEnvOk : SendResponseEnv :=
  { sendOutcome := fun _ => .ok (), redeemOutcome := .ok () }

/-- An event handler that succeeds without touching the state. -/
def handlerOkEvent : NetworkSwarmLoop → SwarmEvent → NetworkSwarmLoop × Option Error :=
  fun st _ => (st, none)

/-- A command handler that succeeds without touching the state. -/
def handlerOkCmd : NetworkSwarmLoop → SwarmCmd → NetworkSwarmLoop × Option Error :=
  fun st _ => (st, none)

/-- An event handler that fails with a dial error. -/
def handlerErrEvent : NetworkSwarmLoop → SwarmEvent → NetworkSwarmLoop × Option Error :=
  fun st _ => (st, some (Error.dialError "dial failed"))

/-- A command handler that fails with an outbound error. -/
def handlerErrCmd : NetworkSwarmLoop → SwarmCmd → NetworkSwarmLoop × Option Error :=
  fun st _ => (st, some (Error.outboundError "outbound failed"))

/-- A sample command for concrete loop traces. -/
def cmdSample : SwarmCmd := SwarmCmd.StoreData ⟨9⟩ 0

/-- A command-channel trace admissible at capacity zero in which two
    submissions complete. -/
def chanTraceSample : List ChanEvent :=
  [ChanEvent.consumed 1, ChanEvent.sendCompleted 1,
   ChanEvent.consumed 2, ChanEvent.sendCompleted 2]

/-! ## Claims -/

/-- C1: `Network::get_data_providers` never fails at the operation level.
The completion channel for a provider query carries a bare set of peer
identities (mod.rs line 56), so whenever the loop resolves it — with any
set, the empty set included — the call returns `Ok` of exactly that set;
an empty provider set is an ordinary success, not an error. -/
theorem get_data_providers_ok_on_resolution
    (xor_name : XorName) (env : CallEnv (List PeerId)) (providers : List PeerId)
    (hsend : env.sendOutcome (SwarmCmd.GetDataProviders xor_name env.oneshotId) = .ok ())
    (hrecv : env.recvOutcome = .ok providers) :
    Network.get_data_providers xor_name env = .ok providers := by
  simp only [Network.get_data_providers]
  rw [hsend, hrecv]

/-- Witness for C1: a concrete key whose provider query resolves with the
empty set yields `Ok` of the empty set. -/
theorem get_data_providers_ok_on_resolution_witness :
    Network.get_data_providers ⟨7⟩ getProvEnvEmpty = .ok [] :=
  get_data_providers_ok_on_resolution ⟨7⟩ getProvEnvEmpty [] rfl rfl

/-- C2 counterexample: in a concrete environment where the command channel
accepts the submission but the loop's redemption of the response capability
fails with a transport error, `Network::send_response` still returns
`Ok(())` to the caller — the redemption error is not reported back (the
submitted `SwarmCmd::SendResponse` carries no completion sender), and the
caller did not suspend on any completion channel. -/
theorem send_response_counterexample :
    sendRespEnvRedeemFails.redeemOutcome =
      .error (Error.transportError "connection closed before response") ∧
    Network.send_response ⟨0⟩ ⟨0⟩ sendRespEnvRedeemFails = .ok () :=
  ⟨rfl, rfl⟩

/-- C2 (amended): `Network::send_response` builds no completion channel and
does not suspend awaiting one; it returns `Ok` as soon as the command
channel accepts `SwarmCmd::SendResponse`, the only error it reports
synchronously is a command-channel submission failure, and its result is
independent of the loop-side redemption outcome. -/
theorem send_response_no_completion_channel :
    (∀ (resp : Response) (channel : ResponseChannel) (env : SendResponseEnv),
      env.sendOutcome (SwarmCmd.SendResponse resp channel) = .ok () →
      Network.send_response resp channel env = .ok ()) ∧
    (∀ (resp : Response) (channel : ResponseChannel) (env : SendResponseEnv)
      (e : SendError),
      env.sendOutcome (SwarmCmd.SendResponse resp channel) = .error e →
      Network.send_response resp channel env = .err (Error.ofSendError e)) ∧
    (∀ (resp : Response) (channel : ResponseChannel) (env env' : SendResponseEnv),
      env.sendOutcome = env'.sendOutcome →
      Network.send_response resp channel env = Network.send_response resp channel env') := by
  refine ⟨?_, ?_, ?_⟩
  · intro resp channel env h
    unfold Network.send_response
    rw [h]
  · intro resp channel env e h
    unfold Network.send_response
    rw [h]
  · intro resp channel env env' h
    unfold Network.send_response
    rw [h]

/-- Witness for the amended C2: a fully successful concrete call. -/
theorem send_response_no_completion_channel_witness :
    Network.send_response ⟨1⟩ ⟨2⟩ sendRespEnvOk = .ok () :=
  send_response_no_completion_channel.1 ⟨1⟩ ⟨2⟩ sendRespEnvOk rfl

/-- C3: each of the five await-style operations (`start_listening`, `dial`,
`store_data`, `get_data_providers`, `send_request`) fails with a
transport-failure error when the driver loop has shut down — whether the
shutdown is observed as a failed command-channel send or as a completion
sender dropped unresolved — and none of them can panic in any
environment. -/
theorem ops_transport_err_on_loop_shutdown :
    (∀ (addr : Multiaddr) (env : CallEnv (Except Error Unit)),
      (env.sendOutcome (SwarmCmd.StartListening addr env.oneshotId) =
          .error SendError.disconnected ∨
        env.recvOutcome = .error Canceled.canceled) →
      (Network.start_listening addr env).isTransportErr = true) ∧
    (∀ (addr : Multiaddr) (env : CallEnv (Except Error Unit)) (msg : String),
      Network.start_listening addr env ≠ .panicked msg) ∧
    (∀ (peer_id : PeerId) (peer_addr : Multiaddr) (env : CallEnv (Except Error Unit)),
      (env.sendOutcome (SwarmCmd.Dial peer_id peer_addr env.oneshotId) =
          .error SendError.disconnected ∨
        env.recvOutcome = .error Canceled.canceled) →
      (Network.dial peer_id peer_addr env).isTransportErr = true) ∧
    (∀ (peer_id : PeerId) (peer_addr : Multiaddr) (env : CallEnv (Except Error Unit))
      (msg : String), Network.dial peer_id peer_addr env ≠ .panicked msg) ∧
    (∀ (xor_name : XorName) (env : CallEnv (Except Error Unit)),
      (env.sendOutcome (SwarmCmd.StoreData xor_name env.oneshotId) =
          .error SendError.disconnected ∨
        env.recvOutcome = .error Canceled.canceled) →
      (Network.store_data xor_name env).isTransportErr = true) ∧
    (∀ (xor_name : XorName) (env : CallEnv (Except Error Unit)) (msg : String),
      Network.store_data xor_name env ≠ .panicked msg) ∧
    (∀ (xor_name : XorName) (env : CallEnv (List PeerId)),
      (env.sendOutcome (SwarmCmd.GetDataProviders xor_name env.oneshotId) =
          .error SendError.disconnected ∨
        env.recvOutcome = .error Canceled.canceled) →
      (Network.get_data_providers xor_name env).isTransportErr = true) ∧
    (∀ (xor_name : XorName) (env : CallEnv (List PeerId)) (msg : String),
      Network.get_data_providers xor_name env ≠ .panicked msg) ∧
    (∀ (req : Request) (peer : PeerId) (env : CallEnv (Except Error Response)),
      (env.sendOutcome (SwarmCmd.SendRequest req peer env.oneshotId) =
          .error SendError.disconnected ∨
        env.recvOutcome = .error Canceled.canceled) →
      (Network.send_request req peer env).isTransportErr = true) ∧
    (∀ (req : Request) (peer : PeerId) (env : CallEnv (Except Error Response))
      (msg : String), Network.send_request req peer env ≠ .panicked msg) := by
  refine ⟨?_, ?_, ?_, ?_, ?_, ?_, ?_, ?_, ?_, ?_⟩
  · intro addr env h
    simp only [Network.start_listening]
    rcases h with h | h
    · rw [h]; rfl
    · cases hs : env.sendOutcome (SwarmCmd.StartListening addr env.oneshotId) with
      | error e => cases e; rfl
      | ok u => rw [h]; rfl
  · intro addr env msg
    simp only [Network.start_listening]
    cases hs : env.sendOutcome (SwarmCmd.StartListening addr env.oneshotId) with
    | error e => simp
    | ok u =>
      cases hr : env.recvOutcome with
      | error c => simp
      | ok r => cases r <;> simp
  · intro peer_id peer_addr env h
    simp only [Network.dial]
    rcases h with h | h
    · rw [h]; rfl
    · cases hs : env.sendOutcome (SwarmCmd.Dial peer_id peer_addr env.oneshotId) with
      | error e => cases e; rfl
      | ok u => rw [h]; rfl
  · intro peer_id peer_addr env msg
    simp only [Network.dial]
    cases hs : env.sendOutcome (SwarmCmd.Dial peer_id peer_addr env.oneshotId) with
    | error e => simp
    | ok u =>
      cases hr : env.recvOutcome with
      | error c => simp
      | ok r => cases r <;> simp
  · intro xor_name env h
    simp only [Network.store_data]
    rcases h with h | h
    · rw [h]; rfl
    · cases hs : env.sendOutcome (SwarmCmd.StoreData xor_name env.oneshotId) with
      | error e => cases e; rfl
      | ok u => rw [h]; rfl
  · intro xor_name env msg
    simp only [Network.store_data]
    cases hs : env.sendOutcome (SwarmCmd.StoreData xor_name env.oneshotId) with
    | error e => simp
    | ok u =>
      cases hr : env.recvOutcome with
      | error c => simp
      | ok r => cases r <;> simp
  · intro xor_name env h
    simp only [Network.get_data_providers]
    rcases h with h | h
    · rw [h]; rfl
    · cases hs : env.sendOutcome (SwarmCmd.GetDataProviders xor_name env.oneshotId) with
      | error e => cases e; rfl
      | ok u => rw [h]; rfl
  · intro xor_name env msg
    simp only [Network.get_data_providers]
    cases hs : env.sendOutcome (SwarmCmd.GetDataProviders xor_name env.oneshotId) with
    | error e => simp
    | ok u =>
      cases hr : env.recvOutcome with
      | error c => simp
      | ok r => simp
  · intro req peer env h
    simp only [Network.send_request]
    rcases h with h | h
    · rw [h]; rfl
    · cases hs : env.sendOutcome (SwarmCmd.SendRequest req peer env.oneshotId) with
      | error e => cases e; rfl
      | ok u => rw [h]; rfl
  · intro req peer env msg
    simp only [Network.send_request]
    cases hs : env.sendOutcome (SwarmCmd.SendRequest req peer env.oneshotId) with
    | error e => simp
    | ok u =>
      cases hr : env.recvOutcome with
      | error c => simp
      | ok r => cases r <;> simp

/-- Witness for C3: concrete shutdown environments (completion sender
dropped unresolved) for each operation. -/
theorem ops_transport_err_on_loop_shutdown_witness :
    (Network.start_listening ⟨[]⟩ shutdownEnvUnit).isTransportErr = true ∧
    Network.start_listening ⟨[]⟩ shutdownEnvUnit ≠ .panicked "boom" ∧
    (Network.dial ⟨1⟩ ⟨[]⟩ shutdownEnvUnit).isTransportErr = true ∧
    (Network.store_data ⟨2⟩ shutdownEnvUnit).isTransportErr = true ∧
    (Network.get_data_providers ⟨3⟩ shutdownEnvProviders).isTransportErr = true ∧
    (Network.send_request ⟨4⟩ ⟨5⟩ shutdownEnvResp).isTransportErr = true :=
  ⟨ops_transport_err_on_loop_shutdown.1 ⟨[]⟩ shutdownEnvUnit (Or.inr rfl),
   ops_transport_err_on_loop_shutdown.2.1 ⟨[]⟩ shutdownEnvUnit "boom",
   ops_transport_err_on_loop_shutdown.2.2.1 ⟨1⟩ ⟨[]⟩ shutdownEnvUnit (Or.inr rfl),
   ops_transport_err_on_loop_shutdown.2.2.2.2.1 ⟨2⟩ shutdownEnvUnit (Or.inr rfl),
   ops_transport_err_on_loop_shutdown.2.2.2.2.2.2.1 ⟨3⟩ shutdownEnvProviders (Or.inr rfl),
   ops_transport_err_on_loop_shutdown.2.2.2.2.2.2.2.2.1 ⟨4⟩ ⟨5⟩ shutdownEnvResp (Or.inr rfl)⟩

/-- C4: `NetworkSwarmLoop::run` returns — gracefully, as
`LoopOutcome.returned`, not an error or a panic — exactly when the first
closed input source its select trace delivers is the command channel
(`cmd_receiver.next()` yielding `None`, i.e. every handle dropped); closure
of the event stream can never produce the returned state. Quantified over
arbitrary `handle_event`/`handle_command` bodies, which live outside this
excerpt. -/
theorem run_returned_iff_cmd_channel_closed
    (handle_event : NetworkSwarmLoop → SwarmEvent → NetworkSwarmLoop × Option Error)
    (handle_command : NetworkSwarmLoop → SwarmCmd → NetworkSwarmLoop × Option Error) :
    ∀ (tr : List SelectArm) (st : NetworkSwarmLoop) (warnings : List String),
    (∃ st' w', NetworkSwarmLoop.run handle_event handle_command st warnings tr =
        .returned st' w') ↔
      firstClose tr = some (SelectArm.cmdNext none) := by
  intro tr
  induction tr with
  | nil =>
    intro st w
    simp [NetworkSwarmLoop.run, firstClose]
  | cons a rest ih =>
    intro st w
    cases a with
    | swarmNext e =>
      cases e with
      | none => simp [NetworkSwarmLoop.run, firstClose]
      | some ev =>
        have hfc : firstClose (SelectArm.swarmNext (some ev) :: rest) =
            firstClose rest := rfl
        rw [hfc]
        cases h : handle_event st ev with
        | mk st' r =>
          cases r with
          | some err =>
            have hrun : NetworkSwarmLoop.run handle_event handle_command st w
                (SelectArm.swarmNext (some ev) :: rest) =
                NetworkSwarmLoop.run handle_event handle_command st'
                  (w ++ ["Error while handling event: " ++ err.render]) rest := by
              simp only [NetworkSwarmLoop.run]
              rw [h]
            rw [hrun]
            exact ih st' _
          | none =>
            have hrun : NetworkSwarmLoop.run handle_event handle_command st w
                (SelectArm.swarmNext (some ev) :: rest) =
                NetworkSwarmLoop.run handle_event handle_command st' w rest := by
              simp only [NetworkSwarmLoop.run]
              rw [h]
            rw [hrun]
            exact ih st' w
    | cmdNext c =>
      cases c with
      | none =>
        constructor
        · intro
          rfl
        · intro
          exact ⟨st, w, rfl⟩
      | some cmd =>
        have hfc : firstClose (SelectArm.cmdNext (some cmd) :: rest) =
            firstClose rest := rfl
        rw [hfc]
        cases h : handle_command st cmd with
        | mk st' r =>
          cases r with
          | some err =>
            have hrun : NetworkSwarmLoop.run handle_event handle_command st w
                (SelectArm.cmdNext (some cmd) :: rest) =
                NetworkSwarmLoop.run handle_event handle_command st'
                  (w ++ ["Error while handling cmd: " ++ err.render]) rest := by
              simp only [NetworkSwarmLoop.run]
              rw [h]
            rw [hrun]
            exact ih st' _
          | none =>
            have hrun : NetworkSwarmLoop.run handle_event handle_command st w
                (SelectArm.cmdNext (some cmd) :: rest) =
                NetworkSwarmLoop.run handle_event handle_command st' w rest := by
              simp only [NetworkSwarmLoop.run]
              rw [h]
            rw [hrun]
            exact ih st' w

/-- Witness for C4: a concrete trace that runs one command and then closes
the command channel does make `run` return. -/
theorem run_returned_iff_cmd_channel_closed_witness :
    firstClose [SelectArm.cmdNext (some cmdSample), SelectArm.cmdNext none] =
      some (SelectArm.cmdNext none) :=
  (run_returned_iff_cmd_channel_closed handlerOkEvent handlerOkCmd
      [SelectArm.cmdNext (some cmdSample), SelectArm.cmdNext none]
      newResultOk.event_loop []).mp
    ⟨newResultOk.event_loop, [], rfl⟩

/-- C5: on any iteration, an error returned by event handling or by command
handling is rendered into a `warn!` message appended to the log and the
loop simply continues with the remaining trace — the iteration never
terminates the loop. -/
theorem run_logs_and_continues_on_handler_error
    (handle_event : NetworkSwarmLoop → SwarmEvent → NetworkSwarmLoop × Option Error)
    (handle_command : NetworkSwarmLoop → SwarmCmd → NetworkSwarmLoop × Option Error)
    (st : NetworkSwarmLoop) (warnings : List String) (ev : SwarmEvent)
    (cmd : SwarmCmd) (rest : List SelectArm) (st₁ st₂ : NetworkSwarmLoop)
    (e₁ e₂ : Error)
    (hev : handle_event st ev = (st₁, some e₁))
    (hcmd : handle_command st cmd = (st₂, some e₂)) :
    NetworkSwarmLoop.run handle_event handle_command st warnings
        (SelectArm.swarmNext (some ev) :: rest) =
      NetworkSwarmLoop.run handle_event handle_command st₁
        (warnings ++ ["Error while handling event: " ++ e₁.render]) rest ∧
    NetworkSwarmLoop.run handle_event handle_command st warnings
        (SelectArm.cmdNext (some cmd) :: rest) =
      NetworkSwarmLoop.run handle_event handle_command st₂
        (warnings ++ ["Error while handling cmd: " ++ e₂.render]) rest := by
  constructor
  · simp only [NetworkSwarmLoop.run]
    rw [hev]
  · simp only [NetworkSwarmLoop.run]
    rw [hcmd]

/-- Witness for C5: concrete failing handlers; each failing iteration equals
the loop continuing on the rest of the trace with the warning logged. -/
theorem run_logs_and_continues_on_handler_error_witness :
    NetworkSwarmLoop.run handlerErrEvent handlerErrCmd newResultOk.event_loop []
        [SelectArm.swarmNext (some ⟨0⟩)] =
      NetworkSwarmLoop.run handlerErrEvent handlerErrCmd newResultOk.event_loop
        ["Error while handling event: Dial Error"] [] ∧
    NetworkSwarmLoop.run handlerErrEvent handlerErrCmd newResultOk.event_loop []
        [SelectArm.cmdNext (some cmdSample)] =
      NetworkSwarmLoop.run handlerErrEvent handlerErrCmd newResultOk.event_loop
        ["Error while handling cmd: Outbound Error"] [] :=
  run_logs_and_continues_on_handler_error handlerErrEvent handlerErrCmd
    newResultOk.event_loop [] ⟨0⟩ cmdSample [] newResultOk.event_loop
    newResultOk.event_loop (Error.dialError "dial failed")
    (Error.outboundError "outbound failed") rfl rfl

/-- C6: `NetworkSwarmLoop::new` creates the command channel with
`mpsc::channel(0)` — capacity zero — and under the zero-capacity rendezvous
discipline a second completed submission is possible only after the loop
has consumed the first: in every capacity-0-admissible channel trace, if
one submission has already completed and another completes now, at least
one loop-side receive already happened. -/
theorem cmd_channel_zero_capacity_rendezvous :
    (∀ (env : NewEnv) (r : NewResult),
      NetworkSwarmLoop.new env = .ok r → r.network.swarm_cmd_sender.capacity = 0) ∧
    (∀ (tr : List ChanEvent) (k j : Nat),
      mpscAdmissible 0 tr = true →
      numSendCompleted (tr.take k) = 1 →
      tr[k]? = some (ChanEvent.sendCompleted j) →
      1 ≤ numConsumed (tr.take k)) := by
  constructor
  · intro env r h
    unfold NetworkSwarmLoop.new at h
    cases hm : env.mdnsOutcome with
    | error e => rw [hm] at h; exact absurd h (by simp)
    | ok u =>
      rw [hm] at h
      cases hp : env.parse "/ip4/0.0.0.0/udp/0/quic-v1" with
      | error e => rw [hp] at h; exact absurd h (by simp)
      | ok addr =>
        rw [hp] at h
        cases hl : env.listenOutcome with
        | error e =>
          rw [hl] at h
          exact absurd h (by simp [Swarm.listen_on])
        | ok lid =>
          rw [hl] at h
          simp only [Swarm.listen_on] at h
          cases h
          rfl
  · intro tr k j hadm h1 hk
    have hlt : k < tr.length := (List.getElem?_eq_some.mp hk).1
    have hmem : k + 1 ∈ List.range (tr.length + 1) := by
      rw [List.mem_range]
      omega
    have hb := List.all_eq_true.mp hadm (k + 1) hmem
    have hble : numSendCompleted (tr.take (k + 1)) ≤ numConsumed (tr.take (k + 1)) + 0 :=
      of_decide_eq_true hb
    have hsucc : tr.take (k + 1) = tr.take k ++ [ChanEvent.sendCompleted j] := by
      rw [List.take_succ, hk]
      rfl
    have hs' : numSendCompleted (tr.take k ++ [ChanEvent.sendCompleted j]) =
        numSendCompleted (tr.take k) + 1 := by
      unfold numSendCompleted
      rw [List.countP_append]
      rfl
    have hc' : numConsumed (tr.take k ++ [ChanEvent.sendCompleted j]) =
        numConsumed (tr.take k) := by
      unfold numConsumed
      rw [List.countP_append]
      rfl
    rw [hsucc, hs', hc'] at hble
    omega

/-- Witness for C6: the fully successful construction yields a capacity-0
command sender, and in a concrete admissible trace with two completed
submissions a receive precedes the second completion. -/
theorem cmd_channel_zero_capacity_rendezvous_witness :
    newResultOk.network.swarm_cmd_sender.capacity = 0 ∧
    1 ≤ numConsumed (chanTraceSample.take 3) :=
  ⟨cmd_channel_zero_capacity_rendezvous.1 newEnvOk newResultOk (by rfl),
   cmd_channel_zero_capacity_rendezvous.2 chanTraceSample 3 2 (by decide)
     (by decide) (by decide)⟩

/-- C7: under the real multiaddr grammar, every successful construction
requests listening exactly on `/ip4/0.0.0.0/udp/0/quic-v1` — all interfaces
(`0.0.0.0`) with an OS-assigned port (`0`) over QUIC — the transport is the
boxed QUIC transport configured with the keypair generated at construction,
and the local peer identity is derived from that keypair's public key. -/
theorem new_listens_on_quic_all_interfaces
    (env : NewEnv) (r : NewResult)
    (hparse : env.parse = Multiaddr.parse)
    (h : NetworkSwarmLoop.new env = .ok r) :
    r.event_loop.swarm.listeners = [quicListenAddr] ∧
    r.event_loop.swarm.transport =
      TransportKind.quicBoxed
        { keypair := identity.Keypair.generate_ed25519 env.entropy } ∧
    r.event_loop.swarm.local_peer_id =
      PeerId.fromPublic
        (identity.Keypair.public (identity.Keypair.generate_ed25519 env.entropy)) := by
  unfold NetworkSwarmLoop.new at h
  cases hm : env.mdnsOutcome with
  | error e => rw [hm] at h; exact absurd h (by simp)
  | ok u =>
    rw [hm, hparse] at h
    rw [show Multiaddr.parse "/ip4/0.0.0.0/udp/0/quic-v1" = .ok quicListenAddr from rfl] at h
    cases hl : env.listenOutcome with
    | error e =>
      rw [hl] at h
      exact absurd h (by simp [Swarm.listen_on])
    | ok lid =>
      rw [hl] at h
      simp only [Swarm.listen_on] at h
      cases h
      exact ⟨rfl, rfl, rfl⟩

/-- Witness for C7: the fully successful construction environment. -/
theorem new_listens_on_quic_all_interfaces_witness :
    newResultOk.event_loop.swarm.listeners = [quicListenAddr] ∧
    newResultOk.event_loop.swarm.transport =
      TransportKind.quicBoxed
        { keypair := identity.Keypair.generate_ed25519 newEnvOk.entropy } ∧
    newResultOk.event_loop.swarm.local_peer_id =
      PeerId.fromPublic
        (identity.Keypair.public (identity.Keypair.generate_ed25519 newEnvOk.entropy)) :=
  new_listens_on_quic_all_interfaces newEnvOk newResultOk rfl rfl

/-- C8: every successful construction registers exactly one named
request/response protocol, with `ProtocolSupport::Full` (bidirectional)
support, in the composed behaviour, and the payload codec is the externally
supplied `MsgCodec`. -/
theorem new_single_full_request_response_protocol
    (env : NewEnv) (r : NewResult)
    (h : NetworkSwarmLoop.new env = .ok r) :
    r.event_loop.swarm.behaviour.request_response.protocols =
      [(MsgProtocol.mk, ProtocolSupport.Full)] ∧
    r.event_loop.swarm.behaviour.request_response.codec = MsgCodec.mk := by
  unfold NetworkSwarmLoop.new at h
  cases hm : env.mdnsOutcome with
  | error e => rw [hm] at h; exact absurd h (by simp)
  | ok u =>
    rw [hm] at h
    cases hp : env.parse "/ip4/0.0.0.0/udp/0/quic-v1" with
    | error e => rw [hp] at h; exact absurd h (by simp)
    | ok addr =>
      rw [hp] at h
      cases hl : env.listenOutcome with
      | error e =>
        rw [hl] at h
        exact absurd h (by simp [Swarm.listen_on])
      | ok lid =>
        rw [hl] at h
        simp only [Swarm.listen_on] at h
        cases h
        exact ⟨rfl, rfl⟩

/-- Witness for C8: the fully successful construction environment. -/
theorem new_single_full_request_response_protocol_witness :
    newResultOk.event_loop.swarm.behaviour.request_response.protocols =
      [(MsgProtocol.mk, ProtocolSupport.Full)] ∧
    newResultOk.event_loop.swarm.behaviour.request_response.codec = MsgCodec.mk :=
  new_single_full_request_response_protocol newEnvOk newResultOk rfl

/-- C9: although `NetworkSwarmLoop::new` returns a `Result`, the parse of
the hardcoded listen multiaddr and `Swarm::listen_on` both sit under
`expect`: when either external call fails, `new` panics with the
corresponding expect message instead of returning `Err`. -/
theorem new_panics_on_parse_or_listen_failure :
    (∀ (env : NewEnv) (e : String),
      env.mdnsOutcome = .ok () →
      env.parse "/ip4/0.0.0.0/udp/0/quic-v1" = .error e →
      NetworkSwarmLoop.new env = .panicked "Failed to parse the address") ∧
    (∀ (env : NewEnv) (addr : Multiaddr) (e : String),
      env.mdnsOutcome = .ok () →
      env.parse "/ip4/0.0.0.0/udp/0/quic-v1" = .ok addr →
      env.listenOutcome = .error e →
      NetworkSwarmLoop.new env = .panicked "Failed to listen on the provided address") := by
  constructor
  · intro env e hm hp
    unfold NetworkSwarmLoop.new
    rw [hm, hp]
  · intro env addr e hm hp hl
    unfold NetworkSwarmLoop.new
    rw [hm, hp, hl]
    rfl

/-- Witness for C9: a failing parser makes `new` panic with the parse
message; a failing bind makes it panic with the listen message. -/
theorem new_panics_on_parse_or_listen_failure_witness :
    NetworkSwarmLoop.new newEnvBadParse = .panicked "Failed to parse the address" ∧
    NetworkSwarmLoop.new newEnvBadListen =
      .panicked "Failed to listen on the provided address" :=
  ⟨new_panics_on_parse_or_listen_failure.1 newEnvBadParse "bad multiaddr" rfl rfl,
   new_panics_on_parse_or_listen_failure.2 newEnvBadListen quicListenAddr
     "bind failed" rfl rfl rfl⟩

/-- C10: if the first closed input source the select trace delivers is the
swarm event stream (`swarm.next()` yielding `None`), `run` panics with
"Swarm stream to be infinite!" — it does not transition to the returned
state; by C4, graceful return is reachable only through command-channel
closure. -/
theorem run_panics_on_swarm_stream_end
    (handle_event : NetworkSwarmLoop → SwarmEvent → NetworkSwarmLoop × Option Error)
    (handle_command : NetworkSwarmLoop → SwarmCmd → NetworkSwarmLoop × Option Error) :
    ∀ (tr : List SelectArm) (st : NetworkSwarmLoop) (warnings : List String),
    firstClose tr = some (SelectArm.swarmNext none) →
    NetworkSwarmLoop.run handle_event handle_command st warnings tr =
      .panicked "Swarm stream to be infinite!" := by
  intro tr
  induction tr with
  | nil =>
    intro st w h
    exact absurd h (by simp [firstClose])
  | cons a rest ih =>
    intro st w h
    cases a with
    | swarmNext e =>
      cases e with
      | none => rfl
      | some ev =>
        have hfc : firstClose (SelectArm.swarmNext (some ev) :: rest) =
            firstClose rest := rfl
        rw [hfc] at h
        cases hh : handle_event st ev with
        | mk st' r =>
          cases r with
          | some err =>
            simp only [NetworkSwarmLoop.run]
            rw [hh]
            exact ih st' _ h
          | none =>
            simp only [NetworkSwarmLoop.run]
            rw [hh]
            exact ih st' w h
    | cmdNext c =>
      cases c with
      | none => exact absurd h (by simp [firstClose])
      | some cmd =>
        have hfc : firstClose (SelectArm.cmdNext (some cmd) :: rest) =
            firstClose rest := rfl
        rw [hfc] at h
        cases hh : handle_command st cmd with
        | mk st' r =>
          cases r with
          | some err =>
            simp only [NetworkSwarmLoop.run]
            rw [hh]
            exact ih st' _ h
          | none =>
            simp only [NetworkSwarmLoop.run]
            rw [hh]
            exact ih st' w h

/-- Witness for C10: a concrete trace whose swarm stream ends after one
command makes `run` panic with the expect message. -/
theorem run_panics_on_swarm_stream_end_witness :
    NetworkSwarmLoop.run handlerOkEvent handlerOkCmd newResultOk.event_loop []
        [SelectArm.cmdNext (some cmdSample), SelectArm.swarmNext none] =
      .panicked "Swarm stream to be infinite!" :=
  run_panics_on_swarm_stream_end handlerOkEvent handlerOkCmd
    [SelectArm.cmdNext (some cmdSample), SelectArm.swarmNext none]
    newResultOk.event_loop [] rfl
